import Mathlib

/-!
Shallow embedding of the content-aggregation pipeline of this repository
(package `advanced_workflow`): the aggregation orchestrator
(`app/services/orchestrator.py`), the report model
(`app/models/aggregated_content.py`), the transcript service
(`app/services/youtube_transcript.py`), the deduplicating repository
(`app/database/repository.py`) and the CLI exit-code policy
(`scripts/run_aggregation.py`).

External I/O (HTTP fetches, the YouTube transcript API, the SQL engine) is
modelled by explicit oracle parameters returning `Except`, mirroring the
try/except structure of the Python code.  Python `datetime` values are
modelled as `Int` timestamps, Python floats as `ℚ`.
-/

namespace Agg

/-- Embedding of `TranscriptData` (app/models/transcript.py and
app/services/youtube_transcript.py): transcript text plus metadata. -/
structure TranscriptData where
  video_id : String
  transcript_text : String
  fetched_at : Int
  char_count : Nat
  word_count : Nat
  is_available : Bool
  error_message : Option String
deriving Repr, DecidableEq

/-- Embedding of `VideoData` (app/scrapers/youtube_scraper.py). -/
structure VideoData where
  title : String
  video_id : String
  channel_name : String
  channel_id : String
  published_date : Int
  link : String
  description : String
  transcript : Option TranscriptData
deriving Repr, DecidableEq

/-- Embedding of `ArticleData` (app/scrapers/anthropic_scraper.py).
Note the tags field is named `subjects`; the model has no `subject_tags`
attribute. -/
structure ArticleData where
  title : String
  slug : String
  url : String
  published_date : Int
  summary : String
  subjects : List String
  source_type : String
deriving Repr, DecidableEq

/-- Embedding of `YouTubeChannelConfig` (app/config/config_loader.py). -/
structure YouTubeChannelConfig where
  id : String
  name : String
  enabled : Bool
  max_results : Nat
deriving Repr, DecidableEq

/-- Embedding of `BlogSourceConfig` (app/config/config_loader.py). -/
structure BlogSourceConfig where
  type : String
  url : String
  max_results : Nat
  enabled : Bool
deriving Repr, DecidableEq

/-- Embedding of `BlogConfig` (app/config/config_loader.py). -/
structure BlogConfig where
  enabled : Bool
  sources : List BlogSourceConfig
deriving Repr, DecidableEq

/-- Embedding of `SourcesConfig` (app/config/config_loader.py).  The Python
dicts are modelled as ordered association lists, matching Python dict
iteration order. -/
structure SourcesConfig where
  youtube : List (String × List YouTubeChannelConfig)
  blogs : List (String × BlogConfig)
deriving Repr, DecidableEq

/-- Embedding of `AggregationMetadata` (app/models/aggregated_content.py).
The two source counters are `Int` because the Python code computes them with
plain integer subtraction. -/
structure AggregationMetadata where
  run_id : String
  started_at : Int
  completed_at : Int
  total_items : Nat
  videos_count : Nat
  articles_count : Nat
  errors : List String
  sources_attempted : Int
  sources_succeeded : Int
deriving Repr, DecidableEq

/-- Embedding of the `has_errors` property: `len(self.errors) > 0`. -/
def AggregationMetadata.has_errors (m : AggregationMetadata) : Bool :=
  m.errors.length != 0

/-- Embedding of the `success_rate` property: returns `0.0` when
`sources_attempted == 0`, otherwise `(sources_succeeded / sources_attempted)
* 100` (a percentage). -/
def AggregationMetadata.success_rate (m : AggregationMetadata) : ℚ :=
  if m.sources_attempted = 0 then 0
  else ((m.sources_succeeded : ℚ) / (m.sources_attempted : ℚ)) * 100

/-- Embedding of `AggregatedContent` (app/models/aggregated_content.py). -/
structure AggregatedContent where
  metadata : AggregationMetadata
  videos : List VideoData
  articles : List ArticleData
deriving Repr, DecidableEq

/-! The transcript service, `app/services/youtube_transcript.py`.  The
YouTube transcript API call is an oracle returning either the list of
segment texts or one of the exception classes the service distinguishes. -/

/-- Exceptions raised by the transcript API, as the service distinguishes
them: the three business outcomes caught by the first handler, and anything
else caught by the generic handler. -/
inductive TranscriptFetchExc where
  | transcriptsDisabled (msg : String)
  | noTranscriptFound (msg : String)
  | videoUnavailable (msg : String)
  | other (msg : String)
deriving Repr, DecidableEq

/-- The `str(e)` text of a transcript exception. -/
def TranscriptFetchExc.text : TranscriptFetchExc → String
  | .transcriptsDisabled m => m
  | .noTranscriptFound m => m
  | .videoUnavailable m => m
  | .other m => m

/-- Whether the exception is one of the three classes caught by the first
handler (`TranscriptsDisabled`, `NoTranscriptFound`, `VideoUnavailable`). -/
def TranscriptFetchExc.isKnownUnavailable : TranscriptFetchExc → Bool
  | .other _ => false
  | _ => true

/-- Character test of the pydantic pattern for video ids:
`[a-zA-Z0-9_-]`. -/
def isVideoIdChar (c : Char) : Bool :=
  ((c.isAlpha && c.val < 128) || c.isDigit) || c = '_' || c = '-'

/-- The pydantic pattern for `video_id`: exactly 11 characters from
`[a-zA-Z0-9_-]`. -/
def isValidVideoId (s : String) : Bool :=
  s.length = 11 && s.toList.all isVideoIdChar

/-- Python `str.split()` with no argument: split on whitespace runs and
drop empty pieces. -/
def pySplitWhitespace (s : String) : List String :=
  (s.split Char.isWhitespace).filter (fun w => w != "")

/-- Python `str.strip()`: remove leading and trailing whitespace. -/
def pyStrip (s : String) : String :=
  ⟨((s.toList.dropWhile Char.isWhitespace).reverse.dropWhile
      Char.isWhitespace).reverse⟩

/-- Construction of a `TranscriptData` pydantic model: `video_id` must match
the 11-character pattern, the text is stripped (`str_strip_whitespace`) and
must not be empty or whitespace-only; a violation raises `ValidationError`,
modelled as `Except.error`. -/
def mkTranscriptData (video_id transcript_text : String) (fetched_at : Int)
    (char_count word_count : Nat) (is_available : Bool)
    (error_message : Option String) : Except String TranscriptData :=
  if !isValidVideoId video_id then
    .error "ValidationError: video_id does not match the required pattern"
  else
    let stripped := pyStrip transcript_text
    if stripped = "" then
      .error "ValidationError: transcript text cannot be empty or whitespace-only"
    else
      .ok { video_id := video_id, transcript_text := stripped,
            fetched_at := fetched_at, char_count := char_count,
            word_count := word_count, is_available := is_available,
            error_message := error_message }

/-- Embedding of `get_transcript` (app/services/youtube_transcript.py,
`return_model=True` branch).  `apiFetch` is the `YouTubeTranscriptApi.fetch`
oracle returning the segment texts.  On the three known exception classes or
any other failure (including a `ValidationError` from constructing the
successful model) the function returns a degraded transcript with
`is_available=False`; a `ValidationError` raised while building the degraded
model itself (invalid `video_id`) escapes as `Except.error`. -/
def get_transcript (apiFetch : String → Except TranscriptFetchExc (List String))
    (now : Int) (video_id : String) : Except String TranscriptData :=
  match apiFetch video_id with
  | .ok segments =>
    let transcript_text := String.intercalate " " segments
    match mkTranscriptData video_id transcript_text now transcript_text.length
        (pySplitWhitespace transcript_text).length true none with
    | .ok t => .ok t
    | .error ve =>
      mkTranscriptData video_id "No transcript available" now 0 0 false
        (some ("Error fetching transcript: " ++ ve))
  | .error e =>
    if e.isKnownUnavailable then
      mkTranscriptData video_id "No transcript available" now 0 0 false
        (some ("Transcript unavailable: " ++ e.text))
    else
      mkTranscriptData video_id "No transcript available" now 0 0 false
        (some ("Error fetching transcript: " ++ e.text))

/-! The orchestrator, `app/services/orchestrator.py`. -/

/-- The error message built at orchestrator.py line 159 for a failing
channel fetch. -/
def ytErrMsg (ch : YouTubeChannelConfig) (e : String) : String :=
  "Failed to fetch videos from channel " ++ ch.name ++ " (" ++ ch.id ++ "): " ++ e

/-- The error message built at orchestrator.py line 212 for a failing
Anthropic blog fetch. -/
def blogErrMsg (e : String) : String :=
  "Failed to fetch articles from Anthropic blog: " ++ e

/-- The transcript loop of `_fetch_youtube_videos` (orchestrator.py lines
166-172): each video gets `video.transcript = get_transcript(...)`; an
exception from `get_transcript` is caught and the video keeps its previous
transcript.  The list is traversed in place, so length and order are fixed
by construction. -/
def enrichVideos (transcriptOf : String → Except String TranscriptData)
    (videos : List VideoData) : List VideoData :=
  videos.map fun v =>
    match transcriptOf v.video_id with
    | .ok t => { v with transcript := some t }
    | .error _ => v

/-- One iteration of the channel loop of `_fetch_youtube_videos`
(orchestrator.py lines 145-161): extend the video list on success, append a
structured error message on any exception. -/
def ytStep (fetchVideos : String → Nat → Except String (List VideoData))
    (acc : List VideoData × List String) (ch : YouTubeChannelConfig) :
    List VideoData × List String :=
  match fetchVideos ch.id ch.max_results with
  | .ok channel_videos => (acc.1 ++ channel_videos, acc.2)
  | .error e => (acc.1, acc.2 ++ [ytErrMsg ch e])

/-- Embedding of `ContentAggregator._fetch_youtube_videos`.  `fetchVideos`
is the `YouTubeScraper.fetch_videos` oracle, `transcriptOf` the
`get_transcript` oracle. -/
def fetchYoutubeVideos (fetchVideos : String → Nat → Except String (List VideoData))
    (transcriptOf : String → Except String TranscriptData)
    (channels_config : List YouTubeChannelConfig) (fetch_transcripts : Bool) :
    List VideoData × List String :=
  let loopRes := channels_config.foldl (ytStep fetchVideos) ([], [])
  ((if fetch_transcripts && !loopRes.1.isEmpty
    then enrichVideos transcriptOf loopRes.1
    else loopRes.1), loopRes.2)

/-- The `max((source.max_results for source in blog_config.sources),
default=20)` expression of `_fetch_blog_articles`. -/
def maxResultsDefault20 (sources : List BlogSourceConfig) : Nat :=
  match sources.map (fun s => s.max_results) with
  | [] => 20
  | x :: xs => xs.foldl max x

/-- One iteration of the blog loop of `_fetch_blog_articles`
(orchestrator.py lines 192-222): disabled blogs are skipped; the blog named
"anthropic" is fetched (errors converted to a message); any other name has
no scraper and contributes nothing — not even an error. -/
def blogStep (fetchAllArticles : Nat → Except String (List ArticleData))
    (acc : List ArticleData × List String) (b : String × BlogConfig) :
    List ArticleData × List String :=
  if !b.2.enabled then acc
  else if b.1 = "anthropic" then
    match fetchAllArticles (maxResultsDefault20 b.2.sources) with
    | .ok blog_articles => (acc.1 ++ blog_articles, acc.2)
    | .error e => (acc.1, acc.2 ++ [blogErrMsg e])
  else acc

/-- Embedding of `ContentAggregator._fetch_blog_articles`.
`fetchAllArticles` is the `AnthropicScraper.fetch_all_articles` oracle. -/
def fetchBlogArticles (fetchAllArticles : Nat → Except String (List ArticleData))
    (blogs_config : List (String × BlogConfig)) :
    List ArticleData × List String :=
  blogs_config.foldl (blogStep fetchAllArticles) ([], [])

/-- Python `needle in haystack` on strings: substring containment. -/
def pyIn (needle haystack : String) : Bool :=
  decide (needle.toList <:+: haystack.toList)

/-- Python `str.lower()`: lowercase every character. -/
def pyLower (s : String) : String :=
  ⟨s.toList.map Char.toLower⟩

/-- The `[e for e in errors if blog_name in e.lower()]` filter of
`aggregate_content` (orchestrator.py line 91), counted. -/
def blogMatchCount (blog_name : String) (errors : List String) : Nat :=
  (errors.filter (fun e => pyIn blog_name (pyLower e))).length

/-- One iteration of the blog counting loop of `aggregate_content`
(orchestrator.py lines 87-92): every enabled blog adds all its configured
sources to `sources_attempted` and `len(sources) - len(blog_errors)` to
`sources_succeeded`, where `blog_errors` are the fetch errors whose
lowercased text contains the blog name. -/
def blogCountStep (errors : List String) (acc : Int × Int)
    (b : String × BlogConfig) : Int × Int :=
  if b.2.enabled then
    (acc.1 + b.2.sources.length,
     acc.2 + ((b.2.sources.length : Int) - (blogMatchCount b.1 errors : Int)))
  else acc

/-- The `"channels" in config.youtube` lookup of `aggregate_content`. -/
def lookupChannels (youtube : List (String × List YouTubeChannelConfig)) :
    Option (List YouTubeChannelConfig) :=
  (youtube.find? (fun p => p.1 = "channels")).map (fun p => p.2)

/-- The channels the YouTube phase of `aggregate_content` operates on: the
enabled entries of `config.youtube["channels"]` when `include_youtube` is
set and the key exists, otherwise none. -/
def enabledChannels (config : SourcesConfig) (include_youtube : Bool) :
    List YouTubeChannelConfig :=
  match (if include_youtube then lookupChannels config.youtube else none) with
  | some channels => channels.filter (fun ch => ch.enabled)
  | none => []

/-- The YouTube phase of `aggregate_content` (orchestrator.py lines 63-77):
fetch from the enabled channels, if any. -/
def ytPhase (fetchVideos : String → Nat → Except String (List VideoData))
    (transcriptOf : String → Except String TranscriptData)
    (config : SourcesConfig) (include_youtube include_transcripts : Bool) :
    List VideoData × List String :=
  let enabled := enabledChannels config include_youtube
  if enabled.isEmpty then ([], [])
  else fetchYoutubeVideos fetchVideos transcriptOf enabled include_transcripts

/-- Embedding of `ContentAggregator.aggregate_content` after a successful
configuration load (orchestrator.py lines 56-125).  The three oracles stand
for the scraper and transcript capabilities; `run_id`, `started_at` and
`completed_at` stand for the wall-clock values the method reads. -/
def aggregate_content (fetchVideos : String → Nat → Except String (List VideoData))
    (transcriptOf : String → Except String TranscriptData)
    (fetchAllArticles : Nat → Except String (List ArticleData))
    (run_id : String) (started_at completed_at : Int)
    (config : SourcesConfig)
    (include_youtube include_blogs include_transcripts : Bool) :
    AggregatedContent :=
  let ytRes := ytPhase fetchVideos transcriptOf config include_youtube include_transcripts
  let all_videos := ytRes.1
  let yt_errors := ytRes.2
  let blogRes := if include_blogs then fetchBlogArticles fetchAllArticles config.blogs
                 else ([], [])
  let all_articles := blogRes.1
  let blog_errors := blogRes.2
  let yt_attempted : Int := (enabledChannels config include_youtube).length
  let blogCounts := if include_blogs
                    then config.blogs.foldl (blogCountStep blog_errors) (0, 0)
                    else (0, 0)
  { metadata := {
      run_id := run_id,
      started_at := started_at,
      completed_at := completed_at,
      total_items := all_videos.length + all_articles.length,
      videos_count := all_videos.length,
      articles_count := all_articles.length,
      errors := yt_errors ++ blog_errors,
      sources_attempted := yt_attempted + blogCounts.1,
      sources_succeeded := (yt_attempted - (yt_errors.length : Int)) + blogCounts.2 },
    videos := all_videos,
    articles := all_articles }

/-! The combined read-time view, `AggregatedContent.all_content`
(app/models/aggregated_content.py lines 62-73). -/

/-- A combined content item, as the `Union[VideoData, ArticleData]` of
`all_content`. -/
inductive ContentItem where
  | video (v : VideoData)
  | article (a : ArticleData)
deriving Repr, DecidableEq

/-- The `published_date` sort key shared by both variants. -/
def ContentItem.published_date : ContentItem → Int
  | .video v => v.published_date
  | .article a => a.published_date

/-- The stable natural key of an item: the video id for videos, the article
URL for articles (the unique columns of the `videos` and `articles`
tables). -/
def ContentItem.naturalKey : ContentItem → String
  | .video v => v.video_id
  | .article a => a.url

/-- The comparator realising Python
`sorted(combined, key=lambda x: x.published_date, reverse=True)`:
descending by date, and a stable sort keeps tied elements in their
original order. -/
def byDateDesc (a b : ContentItem) : Bool :=
  decide (b.published_date ≤ a.published_date)

/-- Embedding of the `all_content` property: videos then articles,
stably sorted by published date, most recent first. -/
def AggregatedContent.all_content (c : AggregatedContent) : List ContentItem :=
  ((c.videos.map ContentItem.video) ++ (c.articles.map ContentItem.article)).mergeSort
    byDateDesc

/-- Lexicographic comparison of character lists, by code point: the order
of natural keys (strings) used for the claimed tie-break. -/
def charListLE : List Char → List Char → Bool
  | [], _ => true
  | _ :: _, [] => false
  | a :: as, b :: bs =>
    if a.val < b.val then true
    else if b.val < a.val then false
    else charListLE as bs

/-- The ordering the specification claims for `all_content`: published date
descending, ties broken by natural key ascending. -/
def dateThenKeyDesc (a b : ContentItem) : Bool :=
  decide (b.published_date < a.published_date) ||
    (decide (a.published_date = b.published_date) &&
      charListLE a.naturalKey.toList b.naturalKey.toList)

/-! The repository, `app/database/repository.py`.  The database engine is
modelled as explicit row lists; a connection failure is injected through a
per-item oracle, mirroring a raised exception from `engine.connect()` or
`conn.execute(...)`. -/

/-- A row of the `videos` table (app/database/models.py), the columns
written by `save_video`. -/
structure VideoRow where
  video_id : String
  title : String
  channel_name : String
  channel_id : String
  published_at : Int
  link : String
  description : String
  transcript_text : Option String
deriving Repr, DecidableEq

/-- A row of the `articles` table (app/database/models.py), the columns
written by `save_article`. -/
structure ArticleRow where
  url : String
  title : String
  slug : String
  published_at : Int
  summary : String
  subjects : List String
deriving Repr, DecidableEq

/-- The database: the two tables the repository writes. -/
structure DBState where
  videos : List VideoRow
  articles : List ArticleRow
deriving Repr, DecidableEq

/-- A Python attribute value of an `ArticleData` object. -/
inductive PyValue where
  | str (s : String)
  | intVal (n : Int)
  | strList (l : List String)
deriving Repr, DecidableEq

/-- Attribute lookup on an `ArticleData` pydantic object: exactly the
declared fields resolve; any other name raises `AttributeError` (pydantic
models do not allow undeclared attributes). -/
def ArticleData.getattr (a : ArticleData) (name : String) : Except String PyValue :=
  if name = "title" then .ok (.str a.title)
  else if name = "slug" then .ok (.str a.slug)
  else if name = "url" then .ok (.str a.url)
  else if name = "published_date" then .ok (.intVal a.published_date)
  else if name = "summary" then .ok (.str a.summary)
  else if name = "subjects" then .ok (.strList a.subjects)
  else if name = "source_type" then .ok (.str a.source_type)
  else .error ("AttributeError: ArticleData object has no attribute " ++ name)

/-- `INSERT ... ON CONFLICT (video_id) DO NOTHING RETURNING id`: a
pre-existing key inserts nothing (`rowcount == 0`), otherwise the row is
appended (`rowcount == 1`). -/
def insertVideoRow (rows : List VideoRow) (r : VideoRow) : Bool × List VideoRow :=
  if rows.any (fun q => q.video_id = r.video_id) then (false, rows)
  else (true, rows ++ [r])

/-- `INSERT ... ON CONFLICT (url) DO NOTHING RETURNING id` on the
`articles` table. -/
def insertArticleRow (rows : List ArticleRow) (r : ArticleRow) : Bool × List ArticleRow :=
  if rows.any (fun q => q.url = r.url) then (false, rows)
  else (true, rows ++ [r])

/-- Embedding of `repository.save_video`: `connectOk = false` models a
storage-layer exception, caught and turned into `False` with the table
unchanged; otherwise the transcript text is extracted when available and the
upsert runs, returning `True` exactly when a row was inserted. -/
def save_video (connectOk : Bool) (rows : List VideoRow) (video : VideoData) :
    Bool × List VideoRow :=
  if connectOk = false then (false, rows)
  else
    let transcript_text : Option String :=
      match video.transcript with
      | some t => if t.is_available then some t.transcript_text else none
      | none => none
    insertVideoRow rows
      { video_id := video.video_id, title := video.title,
        channel_name := video.channel_name, channel_id := video.channel_id,
        published_at := video.published_date, link := video.link,
        description := video.description, transcript_text := transcript_text }

/-- Embedding of `repository.save_article`: after connecting, the parameter
dict evaluates `article.subject_tags if article.subject_tags else []`; the
attribute lookup is the first step and an `AttributeError` from it is caught
by the generic handler, which returns `False` with the table unchanged. -/
def save_article (connectOk : Bool) (rows : List ArticleRow) (article : ArticleData) :
    Bool × List ArticleRow :=
  if connectOk = false then (false, rows)
  else
    match article.getattr "subject_tags" with
    | .error _ => (false, rows)
    | .ok v =>
      let subject_tags : List String :=
        match v with
        | .strList l => if l.isEmpty then [] else l
        | _ => []
      insertArticleRow rows
        { url := article.url, title := article.title, slug := article.slug,
          published_at := article.published_date, summary := article.summary,
          subjects := subject_tags }

/-- The stats dict returned by `repository.save_all`. -/
structure SaveStats where
  videos_saved : Nat
  videos_skipped : Nat
  articles_saved : Nat
  articles_skipped : Nat
  total_saved : Nat
  total_skipped : Nat
deriving Repr, DecidableEq

/-- One iteration of the video loop of `save_all`: a `True` return counts as
saved, a `False` return (duplicate or caught failure) as skipped. -/
def saveVideoStep (vOk : VideoData → Bool) (acc : Nat × Nat × List VideoRow)
    (v : VideoData) : Nat × Nat × List VideoRow :=
  let r := save_video (vOk v) acc.2.2 v
  if r.1 then (acc.1 + 1, acc.2.1, r.2) else (acc.1, acc.2.1 + 1, r.2)

/-- One iteration of the article loop of `save_all`. -/
def saveArticleStep (aOk : ArticleData → Bool) (acc : Nat × Nat × List ArticleRow)
    (a : ArticleData) : Nat × Nat × List ArticleRow :=
  let r := save_article (aOk a) acc.2.2 a
  if r.1 then (acc.1 + 1, acc.2.1, r.2) else (acc.1, acc.2.1 + 1, r.2)

/-- Embedding of `repository.save_all`: saves every video then every
article, counting saved and skipped items; `vOk`/`aOk` inject per-item
storage failures. -/
def save_all (vOk : VideoData → Bool) (aOk : ArticleData → Bool)
    (db : DBState) (videos : List VideoData) (articles : List ArticleData) :
    SaveStats × DBState :=
  let vRes := videos.foldl (saveVideoStep vOk) (0, 0, db.videos)
  let aRes := articles.foldl (saveArticleStep aOk) (0, 0, db.articles)
  ({ videos_saved := vRes.1, videos_skipped := vRes.2.1,
     articles_saved := aRes.1, articles_skipped := aRes.2.1,
     total_saved := vRes.1 + aRes.1,
     total_skipped := vRes.2.1 + aRes.2.1 },
   { videos := vRes.2.2, articles := aRes.2.2 })

/-- The `ge=0` constraints pydantic enforces when `AggregationMetadata` is
constructed (aggregated_content.py lines 19-27): the count fields modelled
as `Nat` cannot be negative, but the two source counters are computed by
plain integer subtraction and are checked here, in field order; a
violation raises `ValidationError`, modelled as `Except.error`. -/
def validateAggregationMetadata (m : AggregationMetadata) :
    Except String AggregationMetadata :=
  if m.sources_attempted < 0 then
    .error "ValidationError: sources_attempted must be greater than or equal to 0"
  else if m.sources_succeeded < 0 then
    .error "ValidationError: sources_succeeded must be greater than or equal to 0"
  else .ok m

/-- Embedding of `ContentAggregator.aggregate_content` including the
pydantic validation performed by the `AggregationMetadata(...)` call at
orchestrator.py line 108: `aggregate_content` computes the field values,
and when the computed `sources_succeeded` is negative — reachable through
the blog name-matching subtraction, e.g. an enabled "anthropic" blog with
zero configured sources and a failing fetch — the constructor raises and
the `ValidationError` escapes the method. -/
def aggregate_content_checked
    (fetchVideos : String → Nat → Except String (List VideoData))
    (transcriptOf : String → Except String TranscriptData)
    (fetchAllArticles : Nat → Except String (List ArticleData))
    (run_id : String) (started_at completed_at : Int)
    (config : SourcesConfig)
    (include_youtube include_blogs include_transcripts : Bool) :
    Except String AggregatedContent :=
  let a := aggregate_content fetchVideos transcriptOf fetchAllArticles run_id
    started_at completed_at config include_youtube include_blogs
    include_transcripts
  match validateAggregationMetadata a.metadata with
  | .ok _ => .ok a
  | .error e => .error e

/-! The CLI exit-code policy, `scripts/run_aggregation.py` lines 187-221. -/

/-- The exit-code decision of `main` on the outcome of the guarded
aggregation call: any escaping exception is `Except.error` and exits 2
(both `except` arms return 2); a completed run exits 1 on zero aggregated
items or a non-empty error list, otherwise 0. -/
def main_exit_code (run : Except String AggregatedContent) : Nat :=
  match run with
  | .error _ => 2
  | .ok a =>
    if a.metadata.total_items = 0 then 1
    else if a.metadata.has_errors then 1
    else 0

/-- Embedding of the body of `main` (run_aggregation.py lines 187-221):
the configuration load outcome, then `aggregate_content` with its
metadata validation — whose escaping exceptions, including a mid-run
`ValidationError`, are caught by the same generic handler — then the
exit-code decision. -/
def main_run (loadConfig : Except String SourcesConfig)
    (fetchVideos : String → Nat → Except String (List VideoData))
    (transcriptOf : String → Except String TranscriptData)
    (fetchAllArticles : Nat → Except String (List ArticleData))
    (run_id : String) (started_at completed_at : Int)
    (include_youtube include_blogs include_transcripts : Bool) : Nat :=
  match loadConfig with
  | .error _ => 2
  | .ok config =>
    main_exit_code (aggregate_content_checked fetchVideos transcriptOf
      fetchAllArticles run_id started_at completed_at config
      include_youtube include_blogs include_transcripts)

/-! Derived quantities used to state properties of the counting loop. -/

/-- Total number of configured sources over the enabled blogs: what the
counting loop adds to `sources_attempted`. -/
def blogAttemptTotal (blogs : List (String × BlogConfig)) : Int :=
  ((blogs.filter (fun b => b.2.enabled)).map (fun b => (b.2.sources.length : Int))).sum

/-- Total number of (blog, error) matches the counting loop subtracts from
`sources_succeeded`: for each enabled blog, the number of fetch errors whose
lowercased text contains the blog name. -/
def blogMatchTotal (errors : List String) (blogs : List (String × BlogConfig)) : Int :=
  ((blogs.filter (fun b => b.2.enabled)).map
    (fun b => (blogMatchCount b.1 errors : Int))).sum

/-- A video with its transcript field cleared: two videos agree under this
map exactly when they differ at most in the transcript. -/
def clearTranscriptField (v : VideoData) : VideoData := { v with transcript := none }

/-! Concrete sample data used by witnesses and counterexamples. -/

/-- Sample metadata of an empty run. -/
def mdBase : AggregationMetadata :=
  { run_id := "agg_20240118_143022", started_at := 0, completed_at := 10,
    total_items := 0, videos_count := 0, articles_count := 0,
    errors := [], sources_attempted := 0, sources_succeeded := 0 }

/-- Sample metadata of a run where one of two sources succeeded. -/
def mdHalf : AggregationMetadata :=
  { mdBase with sources_attempted := 2, sources_succeeded := 1 }

/-- A sample fetched video (natural key from Scenario B of the spec). -/
def vidB : VideoData :=
  { title := "Sample video", video_id := "abc12345678",
    channel_name := "Sample Channel", channel_id := "UCabcdefghijklmnopqrstuv",
    published_date := 100, link := "https://www.youtube.com/watch?v=abc12345678",
    description := "", transcript := none }

/-- A second sample video with a distinct natural key. -/
def vidC : VideoData :=
  { vidB with
    video_id := "def12345678",
    link := "https://www.youtube.com/watch?v=def12345678",
    published_date := 90 }

/-- A third sample video with a distinct natural key. -/
def vidD : VideoData :=
  { vidB with
    video_id := "ghi12345678",
    link := "https://www.youtube.com/watch?v=ghi12345678",
    published_date := 80 }

/-- The row `save_video` writes for `vidB` on an empty table. -/
def vrowB : VideoRow :=
  { video_id := "abc12345678", title := "Sample video",
    channel_name := "Sample Channel", channel_id := "UCabcdefghijklmnopqrstuv",
    published_at := 100, link := "https://www.youtube.com/watch?v=abc12345678",
    description := "", transcript_text := none }

/-- A sample article with URL key "a". -/
def artA : ArticleData :=
  { title := "Post A", slug := "post-a",
    url := "https://www.anthropic.com/research/post-a", published_date := 50,
    summary := "", subjects := ["ai"], source_type := "research" }

/-- A sample article with URL key "b" and the same published date as
`artA`. -/
def artB : ArticleData :=
  { artA with
    title := "Post B",
    slug := "post-b",
    url := "https://www.anthropic.com/research/post-b" }

/-- A sample enabled blog source entry. -/
def srcEntry : BlogSourceConfig :=
  { type := "rss", url := "https://www.anthropic.com/research", max_results := 5,
    enabled := true }

/-- A sample enabled YouTube channel configuration. -/
def chanOK : YouTubeChannelConfig :=
  { id := "UCabcdefghijklmnopqrstuv", name := "Sample Channel", enabled := true,
    max_results := 15 }

/-- A sample channel whose fetches always fail under `fvW`. -/
def chanBad : YouTubeChannelConfig :=
  { id := "UCzzzzzzzzzzzzzzzzzzzzzz", name := "Broken Channel", enabled := true,
    max_results := 15 }

/-- Video-fetch oracle: `chanBad` times out, everything else returns
`vidB`. -/
def fvW : String → Nat → Except String (List VideoData) :=
  fun id _ => if id = chanBad.id then .error "Request timed out" else .ok [vidB]

/-- Transcript oracle that always reports a plain failure. -/
def trNone : String → Except String TranscriptData :=
  fun _ => .error "no transcript"

/-- Article-fetch oracle that always fails. -/
def faBoom : Nat → Except String (List ArticleData) :=
  fun _ => .error "boom"

/-- Article-fetch oracle that always returns `artA`. -/
def faA : Nat → Except String (List ArticleData) :=
  fun _ => .ok [artA]

/-- Transcript-API oracle raising `TranscriptsDisabled` for every video. -/
def apiDisabled : String → Except TranscriptFetchExc (List String) :=
  fun _ => .error (.transcriptsDisabled "Subtitles are disabled for this video")

/-- Configuration falsifying the count invariant: an enabled blog named
"blog" whose name occurs inside the Anthropic fetch error text. -/
def cfgCountCE : SourcesConfig :=
  { youtube := [],
    blogs := [("anthropic", { enabled := true, sources := [srcEntry] }),
              ("blog", { enabled := true, sources := [srcEntry, srcEntry, srcEntry] })] }

/-- The run on `cfgCountCE` with a failing Anthropic fetch. -/
def aggCountCE : AggregatedContent :=
  aggregate_content (fun _ _ => .ok []) trNone faBoom "agg_ce" 0 1 cfgCountCE
    true true true

/-- Configuration with one enabled channel and the Anthropic blog only. -/
def cfgOneEach : SourcesConfig :=
  { youtube := [("channels", [chanOK])],
    blogs := [("anthropic", { enabled := true, sources := [srcEntry] })] }

/-- Configuration with the Anthropic blog and an unimplemented blog named
"blog", both enabled. -/
def cfgUnimpl : SourcesConfig :=
  { youtube := [],
    blogs := [("anthropic", { enabled := true, sources := [srcEntry] }),
              ("blog", { enabled := true, sources := [srcEntry] })] }

/-- `cfgUnimpl` with the unimplemented blog removed. -/
def cfgUnimplAbsent : SourcesConfig :=
  { youtube := [],
    blogs := [("anthropic", { enabled := true, sources := [srcEntry] })] }

/-- A report whose combined view has a published-date tie with natural keys
in descending order. -/
def contentTie : AggregatedContent :=
  { metadata := mdBase, videos := [], articles := [artB, artA] }

/-- The run on `cfgUnimpl` (failing Anthropic fetch plus the unimplemented
blog "blog"). -/
def aggUnimpl : AggregatedContent :=
  aggregate_content (fun _ _ => .ok []) trNone faBoom "agg_u" 0 1 cfgUnimpl
    true true true

/-- The run on `cfgUnimplAbsent` (same, without the unimplemented blog). -/
def aggUnimplAbsent : AggregatedContent :=
  aggregate_content (fun _ _ => .ok []) trNone faBoom "agg_u" 0 1 cfgUnimplAbsent
    true true true

/-- Storage oracle that fails exactly on the video with key
"abc12345678". -/
def vOkNotB : VideoData → Bool := fun w => w.video_id != "abc12345678"

/-- Storage oracle that fails exactly on the article with key
"https://www.anthropic.com/research/post-a". -/
def aOkNotA : ArticleData → Bool :=
  fun x => x.url != "https://www.anthropic.com/research/post-a"

/-- The row of the `articles` table holding `artA`'s natural key. -/
def arowA : ArticleRow :=
  { url := "https://www.anthropic.com/research/post-a", title := "Post A",
    slug := "post-a", published_at := 50, summary := "", subjects := ["ai"] }

/-- Configuration whose only enabled blog is "anthropic" with zero
configured sources (the pydantic default for `sources`). -/
def cfgZeroSrc : SourcesConfig :=
  { youtube := [], blogs := [("anthropic", { enabled := true, sources := [] })] }

/-! Theorems. -/

/-- C1 counterexample: for a run with 2 sources attempted and 1 succeeded,
the derived success rate is not `sourcesSucceeded / sourcesAttempted` (the
code returns the ratio scaled by 100). -/
theorem success_rate_ratio_ce :
    ¬ (mdHalf.success_rate =
        (mdHalf.sources_succeeded : ℚ) / (mdHalf.sources_attempted : ℚ)) := by
  intro h
  have h50 : mdHalf.success_rate = 50 := by
    norm_num [mdHalf, mdBase, AggregationMetadata.success_rate]
  rw [h50] at h
  norm_num [mdHalf, mdBase] at h

/-- C1 (amended): the derived success rate is `0` when `sourcesAttempted`
is `0` (no division by zero) and otherwise equals
`(sourcesSucceeded / sourcesAttempted) * 100`, a percentage. -/
theorem success_rate_is_percentage (m : AggregationMetadata) :
    (m.sources_attempted = 0 → m.success_rate = 0) ∧
    (m.sources_attempted ≠ 0 →
      m.success_rate =
        ((m.sources_succeeded : ℚ) / (m.sources_attempted : ℚ)) * 100) := by
  constructor
  · intro h
    simp [AggregationMetadata.success_rate, h]
  · intro h
    simp [AggregationMetadata.success_rate, h]

/-- C1 witness: the boundary case at zero attempted sources and the
percentage case at one success out of two. -/
theorem success_rate_is_percentage_w :
    mdBase.success_rate = 0 ∧ mdHalf.success_rate = 50 := by
  constructor
  · exact (success_rate_is_percentage mdBase).1 (by norm_num [mdBase])
  · have h := (success_rate_is_percentage mdHalf).2 (by norm_num [mdHalf, mdBase])
    rw [h]
    norm_num [mdHalf, mdBase]

/-- C9 counterexample: a valid configuration whose only enabled blog is
"anthropic" with zero configured sources and a failing fetch.  The run
starts, aggregates zero items and records one source error, but the
counting loop computes `sources_succeeded = 0 - 1 = -1`, the
`AggregationMetadata` constructor raises `ValidationError` (`ge=0`), and
`main`'s generic handler exits 2 where the claim requires 1. -/
theorem exit_code_validation_ce :
    (aggregate_content (fun _ _ => .ok []) trNone faBoom "agg_z" 0 1
      cfgZeroSrc true true true).metadata.total_items = 0 ∧
    (aggregate_content (fun _ _ => .ok []) trNone faBoom "agg_z" 0 1
      cfgZeroSrc true true true).metadata.errors.length = 1 ∧
    (aggregate_content (fun _ _ => .ok []) trNone faBoom "agg_z" 0 1
      cfgZeroSrc true true true).metadata.sources_succeeded = -1 ∧
    main_run (.ok cfgZeroSrc) (fun _ _ => .ok []) trNone faBoom "agg_z" 0 1
      true true true = 2 ∧
    ¬ (main_run (.ok cfgZeroSrc) (fun _ _ => .ok []) trNone faBoom "agg_z" 0 1
      true true true = 1) := by
  decide

/-- C9 (amended): the exit code is 0 exactly when the aggregation completed
(metadata validation included) with no errors and at least one item; 1
exactly when it completed with zero items or at least one source error; 2
exactly when the configuration cannot be loaded or an exception escapes the
aggregation — including the `ValidationError` raised when the blog success
counter goes negative mid-run. -/
theorem main_exit_code_amended (loadConfig : Except String SourcesConfig)
    (fv : String → Nat → Except String (List VideoData))
    (tr : String → Except String TranscriptData)
    (fa : Nat → Except String (List ArticleData))
    (rid : String) (ts te : Int) (iy ib it : Bool) :
    (main_run loadConfig fv tr fa rid ts te iy ib it = 0 ↔
      ∃ cfg a, loadConfig = .ok cfg ∧
        aggregate_content_checked fv tr fa rid ts te cfg iy ib it = .ok a ∧
        a.metadata.total_items ≠ 0 ∧ a.metadata.has_errors = false) ∧
    (main_run loadConfig fv tr fa rid ts te iy ib it = 1 ↔
      ∃ cfg a, loadConfig = .ok cfg ∧
        aggregate_content_checked fv tr fa rid ts te cfg iy ib it = .ok a ∧
        (a.metadata.total_items = 0 ∨ a.metadata.has_errors = true)) ∧
    (main_run loadConfig fv tr fa rid ts te iy ib it = 2 ↔
      (∃ e, loadConfig = .error e) ∨
      (∃ cfg e, loadConfig = .ok cfg ∧
        aggregate_content_checked fv tr fa rid ts te cfg iy ib it = .error e)) := by
  rcases loadConfig with e | cfg
  · refine ⟨?_, ?_, ?_⟩ <;> simp [main_run]
  · rcases hc : aggregate_content_checked fv tr fa rid ts te cfg iy ib it
      with e2 | a
    · refine ⟨?_, ?_, ?_⟩ <;> simp [main_run, main_exit_code, hc]
    · by_cases h0 : a.metadata.total_items = 0
      · refine ⟨?_, ?_, ?_⟩ <;> simp [main_run, main_exit_code, hc, h0]
      · by_cases h1 : a.metadata.has_errors
        · refine ⟨?_, ?_, ?_⟩ <;> simp [main_run, main_exit_code, hc, h0, h1]
        · refine ⟨?_, ?_, ?_⟩ <;> simp [main_run, main_exit_code, hc, h0, h1]

/-- C6: the enrichment stage returns a list of exactly the same length and
order as its input, with every natural key preserved in place and every
field other than the transcript unchanged, whatever the per-item enrichment
outcomes. -/
theorem enrich_preserves_shape
    (transcriptOf : String → Except String TranscriptData)
    (videos : List VideoData) :
    (enrichVideos transcriptOf videos).length = videos.length ∧
    (enrichVideos transcriptOf videos).map (fun v => v.video_id)
      = videos.map (fun v => v.video_id) ∧
    (enrichVideos transcriptOf videos).map clearTranscriptField
      = videos.map clearTranscriptField := by
  refine ⟨by simp [enrichVideos], ?_, ?_⟩ <;>
  · induction videos with
    | nil => simp [enrichVideos]
    | cons v rest ih =>
      simp only [enrichVideos, List.map_cons] at ih ⊢
      cases h : transcriptOf v.video_id <;>
        simp [h, clearTranscriptField, ih]

/-- Constructing the degraded transcript model succeeds whenever the video
id matches the pydantic pattern: the fixed text "No transcript available"
passes the non-empty validator unchanged. -/
theorem mkTranscriptData_degraded (video_id : String) (now : Int)
    (err : Option String) (hv : isValidVideoId video_id = true) :
    mkTranscriptData video_id "No transcript available" now 0 0 false err =
      .ok { video_id := video_id, transcript_text := "No transcript available",
            fetched_at := now, char_count := 0, word_count := 0,
            is_available := false, error_message := err } := by
  simp only [mkTranscriptData, hv, Bool.not_true, Bool.false_eq_true, if_false]
  rfl

/-- C5: whenever the transcript API raises for a (pattern-valid) video id,
`get_transcript` returns — never raises — a transcript with
`is_available = false`, text "No transcript available", zero character and
word counts and an error message naming the cause, and the enrichment loop
keeps the owning item in place with that degraded transcript attached. -/
theorem transcript_failure_degrade
    (apiFetch : String → Except TranscriptFetchExc (List String)) (now : Int)
    (video_id : String) (e : TranscriptFetchExc)
    (hv : isValidVideoId video_id = true)
    (he : apiFetch video_id = .error e) :
    ∃ t : TranscriptData,
      get_transcript apiFetch now video_id = .ok t ∧
      t.is_available = false ∧
      t.transcript_text = "No transcript available" ∧
      t.char_count = 0 ∧ t.word_count = 0 ∧
      t.error_message = some
        ((if e.isKnownUnavailable then "Transcript unavailable: "
          else "Error fetching transcript: ") ++ e.text) ∧
      ∀ (l1 l2 : List VideoData) (v : VideoData), v.video_id = video_id →
        enrichVideos (get_transcript apiFetch now) (l1 ++ v :: l2) =
          enrichVideos (get_transcript apiFetch now) l1 ++
            { v with transcript := some t } ::
              enrichVideos (get_transcript apiFetch now) l2 := by
  refine ⟨{ video_id := video_id, transcript_text := "No transcript available",
            fetched_at := now, char_count := 0, word_count := 0,
            is_available := false,
            error_message := some
              ((if e.isKnownUnavailable then "Transcript unavailable: "
                else "Error fetching transcript: ") ++ e.text) },
          ?_, rfl, rfl, rfl, rfl, rfl, ?_⟩
  · simp only [get_transcript, he]
    cases hk : e.isKnownUnavailable <;>
      simp [hk, mkTranscriptData_degraded _ _ _ hv]
  · intro l1 l2 v hvid
    have hget : get_transcript apiFetch now v.video_id =
        .ok { video_id := video_id,
              transcript_text := "No transcript available",
              fetched_at := now, char_count := 0, word_count := 0,
              is_available := false,
              error_message := some
                ((if e.isKnownUnavailable then "Transcript unavailable: "
                  else "Error fetching transcript: ") ++ e.text) } := by
      rw [hvid]
      simp only [get_transcript, he]
      cases hk : e.isKnownUnavailable <;>
        simp [hk, mkTranscriptData_degraded _ _ _ hv]
    simp [enrichVideos, hget]

/-- C5 witness: Scenario B of the spec — the video with natural key
"abc12345678" enriched against an API raising `TranscriptsDisabled` gets
the degraded transcript and stays in the item list. -/
theorem transcript_failure_degrade_w :
    isValidVideoId "abc12345678" = true ∧
    apiDisabled "abc12345678" =
      .error (.transcriptsDisabled "Subtitles are disabled for this video") ∧
    ∃ t : TranscriptData,
      get_transcript apiDisabled 0 "abc12345678" = .ok t ∧
      t.is_available = false ∧
      t.transcript_text = "No transcript available" ∧
      t.char_count = 0 ∧ t.word_count = 0 ∧
      t.error_message = some
        ((if TranscriptFetchExc.isKnownUnavailable
            (.transcriptsDisabled "Subtitles are disabled for this video")
          then "Transcript unavailable: "
          else "Error fetching transcript: ") ++
          TranscriptFetchExc.text
            (.transcriptsDisabled "Subtitles are disabled for this video")) ∧
      ∀ (l1 l2 : List VideoData) (v : VideoData), v.video_id = "abc12345678" →
        enrichVideos (get_transcript apiDisabled 0) (l1 ++ v :: l2) =
          enrichVideos (get_transcript apiDisabled 0) l1 ++
            { v with transcript := some t } ::
              enrichVideos (get_transcript apiDisabled 0) l2 :=
  ⟨by decide, rfl,
    transcript_failure_degrade apiDisabled 0 "abc12345678"
      (.transcriptsDisabled "Subtitles are disabled for this video")
      (by decide) rfl⟩

/-- Folding an accumulate-by-append step from any start equals folding from
the empty accumulator, prefixed with the start. -/
theorem foldl_pair_shift {γ α β : Type}
    (step : (List α × List β) → γ → List α × List β)
    (hstep : ∀ acc c, step acc c =
      (acc.1 ++ (step ([], []) c).1, acc.2 ++ (step ([], []) c).2))
    (l : List γ) (v0 : List α) (e0 : List β) :
    l.foldl step (v0, e0) =
      (v0 ++ (l.foldl step ([], [])).1, e0 ++ (l.foldl step ([], [])).2) := by
  induction l generalizing v0 e0 with
  | nil => simp
  | cons c rest ih =>
    rcases hc : step ([], []) c with ⟨X, Y⟩
    have h1 : step (v0, e0) c = (v0 ++ X, e0 ++ Y) := by
      rw [hstep (v0, e0) c, hc]
    simp only [List.foldl_cons, h1, hc]
    rw [ih (v0 ++ X) (e0 ++ Y), ih X Y]
    simp [List.append_assoc]

/-- The channel-loop step only appends to its accumulator. -/
theorem ytStep_shift (f : String → Nat → Except String (List VideoData))
    (acc : List VideoData × List String) (ch : YouTubeChannelConfig) :
    ytStep f acc ch =
      (acc.1 ++ (ytStep f ([], []) ch).1, acc.2 ++ (ytStep f ([], []) ch).2) := by
  cases h : f ch.id ch.max_results <;> simp [ytStep, h]

/-- The blog-loop step only appends to its accumulator. -/
theorem blogStep_shift (fa : Nat → Except String (List ArticleData))
    (acc : List ArticleData × List String) (b : String × BlogConfig) :
    blogStep fa acc b =
      (acc.1 ++ (blogStep fa ([], []) b).1, acc.2 ++ (blogStep fa ([], []) b).2) := by
  by_cases he : b.2.enabled
  · by_cases hn : b.1 = "anthropic"
    · cases h : fa (maxResultsDefault20 b.2.sources) <;>
        simp [blogStep, he, hn, h]
    · simp [blogStep, he, hn]
  · simp [blogStep, he]

/-- The channel loop distributes over list append, componentwise. -/
theorem ytFold_append (f : String → Nat → Except String (List VideoData))
    (L1 L2 : List YouTubeChannelConfig) :
    (L1 ++ L2).foldl (ytStep f) ([], []) =
      ((L1.foldl (ytStep f) ([], [])).1 ++ (L2.foldl (ytStep f) ([], [])).1,
       (L1.foldl (ytStep f) ([], [])).2 ++ (L2.foldl (ytStep f) ([], [])).2) := by
  rw [List.foldl_append]
  rcases h1 : L1.foldl (ytStep f) ([], []) with ⟨A, B⟩
  rw [foldl_pair_shift _ (ytStep_shift f) L2 A B]

/-- The blog loop distributes over list append, componentwise. -/
theorem blogFold_append (fa : Nat → Except String (List ArticleData))
    (M1 M2 : List (String × BlogConfig)) :
    (M1 ++ M2).foldl (blogStep fa) ([], []) =
      ((M1.foldl (blogStep fa) ([], [])).1 ++ (M2.foldl (blogStep fa) ([], [])).1,
       (M1.foldl (blogStep fa) ([], [])).2 ++ (M2.foldl (blogStep fa) ([], [])).2) := by
  rw [List.foldl_append]
  rcases h1 : M1.foldl (blogStep fa) ([], []) with ⟨A, B⟩
  rw [foldl_pair_shift _ (blogStep_shift fa) M2 A B]

/-- The error component of `_fetch_youtube_videos` is the error component
of its channel loop (the transcript stage never touches it). -/
theorem fetchYoutubeVideos_snd (f : String → Nat → Except String (List VideoData))
    (tr : String → Except String TranscriptData)
    (chs : List YouTubeChannelConfig) (ft : Bool) :
    (fetchYoutubeVideos f tr chs ft).2 = (chs.foldl (ytStep f) ([], [])).2 := rfl

/-- C3: a source whose fetch raises is converted into an error record built
from its display identity (`ytErrMsg` carries the channel name and id,
`blogErrMsg` names the Anthropic blog) and never propagates — the fetch
functions stay total — and the items produced for all other sources are
exactly those of a run without the failing source; only the error list
changes.  Stated for the YouTube channel loop (around an always-failing
channel `c`) and for the blog loop (around an enabled "anthropic" entry
whose fetch always fails). -/
theorem source_failure_isolation
    (f : String → Nat → Except String (List VideoData))
    (tr : String → Except String TranscriptData)
    (fa : Nat → Except String (List ArticleData))
    (l1 l2 : List YouTubeChannelConfig) (c : YouTubeChannelConfig) (ft : Bool)
    (e : String) (m1 m2 : List (String × BlogConfig)) (bc : BlogConfig)
    (eb : String)
    (hf : f c.id c.max_results = .error e)
    (hb : ∀ n, fa n = .error eb)
    (hbe : bc.enabled = true) :
    (fetchYoutubeVideos f tr (l1 ++ c :: l2) ft).1 =
      (fetchYoutubeVideos f tr (l1 ++ l2) ft).1 ∧
    (fetchYoutubeVideos f tr (l1 ++ c :: l2) ft).2 =
      (fetchYoutubeVideos f tr l1 ft).2 ++
        ytErrMsg c e :: (fetchYoutubeVideos f tr l2 ft).2 ∧
    (fetchYoutubeVideos f tr (l1 ++ l2) ft).2 =
      (fetchYoutubeVideos f tr l1 ft).2 ++ (fetchYoutubeVideos f tr l2 ft).2 ∧
    (fetchBlogArticles fa (m1 ++ ("anthropic", bc) :: m2)).1 =
      (fetchBlogArticles fa (m1 ++ m2)).1 ∧
    (fetchBlogArticles fa (m1 ++ ("anthropic", bc) :: m2)).2 =
      (fetchBlogArticles fa m1).2 ++ blogErrMsg eb :: (fetchBlogArticles fa m2).2 := by
  have hcl : (c :: l2).foldl (ytStep f) ([], []) =
      ((l2.foldl (ytStep f) ([], [])).1,
       ytErrMsg c e :: (l2.foldl (ytStep f) ([], [])).2) := by
    have hs : ytStep f ([], []) c = ([], [ytErrMsg c e]) := by
      simp [ytStep, hf]
    rw [List.foldl_cons, hs,
        foldl_pair_shift _ (ytStep_shift f) l2 [] [ytErrMsg c e]]
    simp
  have hwith := ytFold_append f l1 (c :: l2)
  rw [hcl] at hwith
  have hwout := ytFold_append f l1 l2
  have hblog : (("anthropic", bc) :: m2).foldl (blogStep fa) ([], []) =
      ((m2.foldl (blogStep fa) ([], [])).1,
       blogErrMsg eb :: (m2.foldl (blogStep fa) ([], [])).2) := by
    have hs : blogStep fa ([], []) ("anthropic", bc) = ([], [blogErrMsg eb]) := by
      simp [blogStep, hbe, hb]
    rw [List.foldl_cons, hs,
        foldl_pair_shift _ (blogStep_shift fa) m2 [] [blogErrMsg eb]]
    simp
  have hbwith := blogFold_append fa m1 (("anthropic", bc) :: m2)
  rw [hblog] at hbwith
  have hbwout := blogFold_append fa m1 m2
  refine ⟨?_, ?_, ?_, ?_, ?_⟩
  · simp only [fetchYoutubeVideos, hwith, hwout]
  · simp only [fetchYoutubeVideos_snd, hwith, hwout]
  · simp only [fetchYoutubeVideos_snd, hwith, hwout]
  · simp only [fetchBlogArticles, hbwith, hbwout]
  · simp only [fetchBlogArticles, hbwith, hbwout]

/-- C3 witness: one healthy channel plus an always-failing channel, and an
enabled "anthropic" blog whose fetch always fails. -/
theorem source_failure_isolation_w :
    fvW chanBad.id chanBad.max_results = .error "Request timed out" ∧
    ((fetchYoutubeVideos fvW trNone ([chanOK] ++ chanBad :: []) true).1 =
      (fetchYoutubeVideos fvW trNone ([chanOK] ++ []) true).1 ∧
    (fetchYoutubeVideos fvW trNone ([chanOK] ++ chanBad :: []) true).2 =
      (fetchYoutubeVideos fvW trNone [chanOK] true).2 ++
        ytErrMsg chanBad "Request timed out" ::
          (fetchYoutubeVideos fvW trNone [] true).2 ∧
    (fetchYoutubeVideos fvW trNone ([chanOK] ++ []) true).2 =
      (fetchYoutubeVideos fvW trNone [chanOK] true).2 ++
        (fetchYoutubeVideos fvW trNone [] true).2 ∧
    (fetchBlogArticles faBoom
        ([] ++ ("anthropic", ⟨true, [srcEntry]⟩) :: [])).1 =
      (fetchBlogArticles faBoom ([] ++ [])).1 ∧
    (fetchBlogArticles faBoom
        ([] ++ ("anthropic", ⟨true, [srcEntry]⟩) :: [])).2 =
      (fetchBlogArticles faBoom []).2 ++
        blogErrMsg "boom" :: (fetchBlogArticles faBoom []).2) :=
  ⟨rfl,
   source_failure_isolation fvW trNone faBoom [chanOK] [] chanBad true
     "Request timed out" [] [] ⟨true, [srcEntry]⟩ "boom" rfl
     (fun _ => rfl) rfl⟩

/-- The counting loop of `aggregate_content`, in closed form: attempted
grows by the per-blog source totals, succeeded by the source totals minus
the per-blog error matches. -/
theorem blogCount_fold (errors : List String)
    (blogs : List (String × BlogConfig)) (a0 s0 : Int) :
    blogs.foldl (blogCountStep errors) (a0, s0) =
      (a0 + blogAttemptTotal blogs,
       s0 + (blogAttemptTotal blogs - blogMatchTotal errors blogs)) := by
  induction blogs generalizing a0 s0 with
  | nil => simp [blogAttemptTotal, blogMatchTotal]
  | cons b rest ih =>
    by_cases hb : b.2.enabled
    · have hstep : blogCountStep errors (a0, s0) b =
          (a0 + b.2.sources.length,
           s0 + ((b.2.sources.length : Int) - (blogMatchCount b.1 errors : Int))) := by
        simp [blogCountStep, hb]
      simp only [List.foldl_cons, hstep, ih]
      simp only [blogAttemptTotal, blogMatchTotal, List.filter_cons, hb,
        if_pos, List.map_cons, List.sum_cons]
      refine Prod.ext ?_ ?_ <;> simp <;> ring
    · have hstep : blogCountStep errors (a0, s0) b = (a0, s0) := by
        simp [blogCountStep, hb]
      simp only [List.foldl_cons, hstep, ih]
      simp only [blogAttemptTotal, blogMatchTotal, List.filter_cons, hb]
      simp

/-- C2 (amended): `total_items` always equals the number of videos plus the
number of articles; and `sourcesSucceeded` equals `sourcesAttempted` minus
the number of recorded errors provided the blog-fetch error messages match
enabled blog names exactly once overall — the code attributes blog errors
by checking whether the blog name occurs in the lowercased error text, so a
blog name occurring in another blog's error text breaks the count. -/
theorem count_invariant_amended
    (fv : String → Nat → Except String (List VideoData))
    (tr : String → Except String TranscriptData)
    (fa : Nat → Except String (List ArticleData))
    (rid : String) (ts te : Int) (cfg : SourcesConfig) (iy ib it : Bool)
    (h : blogMatchTotal (fetchBlogArticles fa cfg.blogs).2 cfg.blogs =
      ((fetchBlogArticles fa cfg.blogs).2.length : Int)) :
    (aggregate_content fv tr fa rid ts te cfg iy ib it).metadata.total_items =
      (aggregate_content fv tr fa rid ts te cfg iy ib it).videos.length +
        (aggregate_content fv tr fa rid ts te cfg iy ib it).articles.length ∧
    (aggregate_content fv tr fa rid ts te cfg iy ib it).metadata.sources_succeeded =
      (aggregate_content fv tr fa rid ts te cfg iy ib it).metadata.sources_attempted -
        ((aggregate_content fv tr fa rid ts te cfg iy ib it).metadata.errors.length : Int) := by
  refine ⟨rfl, ?_⟩
  cases ib with
  | false =>
    simp only [aggregate_content, Bool.false_eq_true, if_false]
    simp
  | true =>
    simp only [aggregate_content, if_pos]
    rw [blogCount_fold]
    simp only [List.length_append]
    rw [h] at *
    push_cast
    ring

/-- C2 counterexample: with an enabled blog named "blog" alongside a
failing "anthropic" blog, the Anthropic error text contains both names, the
error is double-attributed, and `sourcesSucceeded` (2) differs from
`sourcesAttempted - len(errors)` (4 - 1 = 3). -/
theorem count_invariant_ce :
    ¬ (aggCountCE.metadata.sources_succeeded =
        aggCountCE.metadata.sources_attempted -
          (aggCountCE.metadata.errors.length : Int)) := by
  decide

/-- C2 witness: one healthy channel plus the Anthropic blog failing once —
the hypothesis holds and the counts balance. -/
theorem count_invariant_amended_w :
    blogMatchTotal (fetchBlogArticles faBoom cfgOneEach.blogs).2 cfgOneEach.blogs =
      ((fetchBlogArticles faBoom cfgOneEach.blogs).2.length : Int) ∧
    ((aggregate_content fvW trNone faBoom "agg_w" 0 1 cfgOneEach true true true).metadata.total_items =
      (aggregate_content fvW trNone faBoom "agg_w" 0 1 cfgOneEach true true true).videos.length +
        (aggregate_content fvW trNone faBoom "agg_w" 0 1 cfgOneEach true true true).articles.length ∧
    (aggregate_content fvW trNone faBoom "agg_w" 0 1 cfgOneEach true true true).metadata.sources_succeeded =
      (aggregate_content fvW trNone faBoom "agg_w" 0 1 cfgOneEach true true true).metadata.sources_attempted -
        ((aggregate_content fvW trNone faBoom "agg_w" 0 1 cfgOneEach true true true).metadata.errors.length : Int)) :=
  ⟨by decide,
   count_invariant_amended fvW trNone faBoom "agg_w" 0 1 cfgOneEach true true true
     (by decide)⟩

/-- Per-blog attempted totals add over list append. -/
theorem blogAttemptTotal_append (x y : List (String × BlogConfig)) :
    blogAttemptTotal (x ++ y) = blogAttemptTotal x + blogAttemptTotal y := by
  simp [blogAttemptTotal, List.filter_append]

/-- Per-blog error-match totals add over list append. -/
theorem blogMatchTotal_append (errors : List String)
    (x y : List (String × BlogConfig)) :
    blogMatchTotal errors (x ++ y) =
      blogMatchTotal errors x + blogMatchTotal errors y := by
  simp [blogMatchTotal, List.filter_append]

/-- C10 (amended): an enabled blog aggregator whose name has no implemented
scraper (any name other than "anthropic") triggers no fetch and no error —
articles and error list are those of the run without it — while all of its
configured sources are still added to `sourcesAttempted`; they are all also
added to `sourcesSucceeded` provided no blog-fetch error message contains
the blog name (case-insensitively), since the counting loop subtracts the
errors whose lowercased text contains the name. -/
theorem unimplemented_blog_counts
    (fv : String → Nat → Except String (List VideoData))
    (tr : String → Except String TranscriptData)
    (fa : Nat → Except String (List ArticleData))
    (rid : String) (ts te : Int)
    (yt : List (String × List YouTubeChannelConfig))
    (m1 m2 : List (String × BlogConfig)) (n : String) (bc : BlogConfig)
    (iy it : Bool)
    (hn : n ≠ "anthropic") (he : bc.enabled = true)
    (hm : blogMatchCount n (fetchBlogArticles fa (m1 ++ m2)).2 = 0) :
    (aggregate_content fv tr fa rid ts te ⟨yt, m1 ++ (n, bc) :: m2⟩ iy true it).articles =
      (aggregate_content fv tr fa rid ts te ⟨yt, m1 ++ m2⟩ iy true it).articles ∧
    (aggregate_content fv tr fa rid ts te ⟨yt, m1 ++ (n, bc) :: m2⟩ iy true it).metadata.errors =
      (aggregate_content fv tr fa rid ts te ⟨yt, m1 ++ m2⟩ iy true it).metadata.errors ∧
    (aggregate_content fv tr fa rid ts te ⟨yt, m1 ++ (n, bc) :: m2⟩ iy true it).metadata.sources_attempted =
      (aggregate_content fv tr fa rid ts te ⟨yt, m1 ++ m2⟩ iy true it).metadata.sources_attempted +
        (bc.sources.length : Int) ∧
    (aggregate_content fv tr fa rid ts te ⟨yt, m1 ++ (n, bc) :: m2⟩ iy true it).metadata.sources_succeeded =
      (aggregate_content fv tr fa rid ts te ⟨yt, m1 ++ m2⟩ iy true it).metadata.sources_succeeded +
        (bc.sources.length : Int) := by
  have hstep : blogStep fa ([], []) (n, bc) = ([], []) := by
    simp [blogStep, he, hn]
  have hcons : ((n, bc) :: m2).foldl (blogStep fa) ([], []) =
      m2.foldl (blogStep fa) ([], []) := by
    rw [List.foldl_cons, hstep]
  have hfetch : fetchBlogArticles fa (m1 ++ (n, bc) :: m2) =
      fetchBlogArticles fa (m1 ++ m2) := by
    unfold fetchBlogArticles
    rw [blogFold_append fa m1 ((n, bc) :: m2), blogFold_append fa m1 m2, hcons]
  have hatt : blogAttemptTotal (m1 ++ (n, bc) :: m2) =
      blogAttemptTotal (m1 ++ m2) + (bc.sources.length : Int) := by
    rw [blogAttemptTotal_append, blogAttemptTotal_append]
    have hc : blogAttemptTotal ((n, bc) :: m2) =
        (bc.sources.length : Int) + blogAttemptTotal m2 := by
      simp [blogAttemptTotal, List.filter_cons, he]
    rw [hc]
    ring
  have hmatch : blogMatchTotal (fetchBlogArticles fa (m1 ++ m2)).2 (m1 ++ (n, bc) :: m2) =
      blogMatchTotal (fetchBlogArticles fa (m1 ++ m2)).2 (m1 ++ m2) := by
    rw [blogMatchTotal_append, blogMatchTotal_append]
    have hc : blogMatchTotal (fetchBlogArticles fa (m1 ++ m2)).2 ((n, bc) :: m2) =
        (blogMatchCount n (fetchBlogArticles fa (m1 ++ m2)).2 : Int) +
          blogMatchTotal (fetchBlogArticles fa (m1 ++ m2)).2 m2 := by
      simp [blogMatchTotal, List.filter_cons, he]
    rw [hc, hm]
    simp
  have hyt : ytPhase fv tr ⟨yt, m1 ++ (n, bc) :: m2⟩ iy it =
      ytPhase fv tr ⟨yt, m1 ++ m2⟩ iy it := rfl
  have hchan : enabledChannels ⟨yt, m1 ++ (n, bc) :: m2⟩ iy =
      enabledChannels ⟨yt, m1 ++ m2⟩ iy := rfl
  refine ⟨?_, ?_, ?_, ?_⟩
  · simp only [aggregate_content, if_pos, hfetch]
  · simp only [aggregate_content, if_pos, hfetch]
    rw [hyt]
  · simp only [aggregate_content, if_pos, hfetch]
    rw [blogCount_fold, blogCount_fold, hatt, hchan]
    ring
  · simp only [aggregate_content, if_pos, hfetch]
    rw [blogCount_fold, blogCount_fold, hatt, hmatch, hchan, hyt]
    ring

/-- C10 counterexample: with the Anthropic blog failing alongside an
enabled unimplemented blog named "blog" (one configured source), the word
"blog" occurs in the Anthropic error text, so the unimplemented blog's
source is counted in `sourcesAttempted` but not in `sourcesSucceeded`. -/
theorem unimplemented_blog_counts_ce :
    ¬ (aggUnimpl.metadata.sources_succeeded =
        aggUnimplAbsent.metadata.sources_succeeded + 1) := by
  decide

/-- C10 witness: an enabled unimplemented blog named "openai" next to a
failing Anthropic blog — the error text does not contain "openai", so both
counters grow by its source count. -/
theorem unimplemented_blog_counts_w :
    (aggregate_content (fun _ _ => .ok []) trNone faBoom "agg_u" 0 1
        ⟨[], [("anthropic", ⟨true, [srcEntry]⟩)] ++ ("openai", ⟨true, [srcEntry]⟩) :: []⟩
        true true true).articles =
      (aggregate_content (fun _ _ => .ok []) trNone faBoom "agg_u" 0 1
        ⟨[], [("anthropic", ⟨true, [srcEntry]⟩)] ++ []⟩ true true true).articles ∧
    (aggregate_content (fun _ _ => .ok []) trNone faBoom "agg_u" 0 1
        ⟨[], [("anthropic", ⟨true, [srcEntry]⟩)] ++ ("openai", ⟨true, [srcEntry]⟩) :: []⟩
        true true true).metadata.errors =
      (aggregate_content (fun _ _ => .ok []) trNone faBoom "agg_u" 0 1
        ⟨[], [("anthropic", ⟨true, [srcEntry]⟩)] ++ []⟩ true true true).metadata.errors ∧
    (aggregate_content (fun _ _ => .ok []) trNone faBoom "agg_u" 0 1
        ⟨[], [("anthropic", ⟨true, [srcEntry]⟩)] ++ ("openai", ⟨true, [srcEntry]⟩) :: []⟩
        true true true).metadata.sources_attempted =
      (aggregate_content (fun _ _ => .ok []) trNone faBoom "agg_u" 0 1
        ⟨[], [("anthropic", ⟨true, [srcEntry]⟩)] ++ []⟩ true true true).metadata.sources_attempted +
        ((BlogConfig.mk true [srcEntry]).sources.length : Int) ∧
    (aggregate_content (fun _ _ => .ok []) trNone faBoom "agg_u" 0 1
        ⟨[], [("anthropic", ⟨true, [srcEntry]⟩)] ++ ("openai", ⟨true, [srcEntry]⟩) :: []⟩
        true true true).metadata.sources_succeeded =
      (aggregate_content (fun _ _ => .ok []) trNone faBoom "agg_u" 0 1
        ⟨[], [("anthropic", ⟨true, [srcEntry]⟩)] ++ []⟩ true true true).metadata.sources_succeeded +
        ((BlogConfig.mk true [srcEntry]).sources.length : Int) :=
  unimplemented_blog_counts (fun _ _ => .ok []) trNone faBoom "agg_u" 0 1 []
    [("anthropic", ⟨true, [srcEntry]⟩)] [] "openai" ⟨true, [srcEntry]⟩ true true
    (by decide) rfl (by decide)

/-- The comparator of `all_content` is transitive. -/
theorem byDateDesc_trans (a b c : ContentItem) (hab : byDateDesc a b = true)
    (hbc : byDateDesc b c = true) : byDateDesc a c = true := by
  simp only [byDateDesc, decide_eq_true_eq] at *
  omega

/-- The comparator of `all_content` is total. -/
theorem byDateDesc_total (a b : ContentItem) :
    (byDateDesc a b || byDateDesc b a) = true := by
  simp only [byDateDesc, Bool.or_eq_true, decide_eq_true_eq]
  omega

/-- C8 (amended): `all_content` is a permutation of the videos followed by
the articles, sorted by published date descending; the sort is stable, so a
date tie keeps the original combined order (videos before articles, each in
insertion order) — there is no tie-break by natural key. -/
theorem all_content_sorted_stable (c : AggregatedContent) :
    (c.all_content).Perm
      (c.videos.map ContentItem.video ++ c.articles.map ContentItem.article) ∧
    c.all_content.Pairwise (fun a b => b.published_date ≤ a.published_date) ∧
    (∀ a b : ContentItem, a.published_date = b.published_date →
      [a, b].Sublist
        (c.videos.map ContentItem.video ++ c.articles.map ContentItem.article) →
      [a, b].Sublist c.all_content) := by
  refine ⟨?_, ?_, ?_⟩
  · exact List.mergeSort_perm _ _
  · have h := List.sorted_mergeSort byDateDesc_trans byDateDesc_total
      (c.videos.map ContentItem.video ++ c.articles.map ContentItem.article)
    exact h.imp fun hab => by
      simpa [byDateDesc, decide_eq_true_eq] using hab
  · intro a b hd hsub
    exact List.pair_sublist_mergeSort byDateDesc_trans byDateDesc_total
      (by simp [byDateDesc, hd]) hsub

/-- C8 counterexample: two articles share a published date and appear with
natural keys in descending order; the stable sort keeps them in that order,
so `all_content` is not ordered by date descending with ties broken by
natural key ascending. -/
theorem all_content_tiebreak_ce :
    ¬ (contentTie.all_content.Pairwise
        (fun a b => dateThenKeyDesc a b = true)) := by
  have hsub : [ContentItem.article artB, ContentItem.article artA].Sublist
      contentTie.all_content :=
    List.pair_sublist_mergeSort byDateDesc_trans byDateDesc_total
      (by decide) (by decide)
  have hlen : contentTie.all_content.length = 2 := by
    have hp := (List.mergeSort_perm
      (contentTie.videos.map ContentItem.video ++
        contentTie.articles.map ContentItem.article) byDateDesc).length_eq
    exact hp.trans (by decide)
  have heq : [ContentItem.article artB, ContentItem.article artA] =
      contentTie.all_content :=
    hsub.eq_of_length (by rw [hlen]; rfl)
  intro h
  rw [← heq] at h
  simp only [List.pairwise_cons, List.mem_singleton, forall_eq] at h
  exact absurd h.1 (by decide)

/-- C8 witness: the tied pair of `contentTie` keeps its combined order
inside `all_content`. -/
theorem all_content_sorted_stable_w :
    (ContentItem.article artB).published_date =
      (ContentItem.article artA).published_date ∧
    [ContentItem.article artB, ContentItem.article artA].Sublist
      (contentTie.videos.map ContentItem.video ++
        contentTie.articles.map ContentItem.article) ∧
    [ContentItem.article artB, ContentItem.article artA].Sublist
      contentTie.all_content :=
  ⟨by decide, by decide,
   (all_content_sorted_stable contentTie).2.2 _ _ (by decide) (by decide)⟩

/-- C4: evaluation of the repository at the failing input.  The parameter
dict of `save_article` reads `article.subject_tags`, an attribute
`ArticleData` does not have (the field is `subjects`), so every call raises
`AttributeError` internally, is caught, and returns `False`: persisting the
same article twice yields no insert at all, zero rows for its key, and
`total_saved = 0`, `total_skipped = 2` — not the inserted-then-duplicate
behaviour the specification describes. -/
theorem save_article_dedup_eval :
    ArticleData.getattr artA "subject_tags" =
      .error "AttributeError: ArticleData object has no attribute subject_tags" ∧
    save_article true [] artA = (false, []) ∧
    (save_all (fun _ => true) (fun _ => true) ⟨[], []⟩ [] [artA, artA]).1.total_saved = 0 ∧
    (save_all (fun _ => true) (fun _ => true) ⟨[], []⟩ [] [artA, artA]).1.total_skipped = 2 ∧
    ((save_all (fun _ => true) (fun _ => true) ⟨[], []⟩ [] [artA, artA]).2.articles.filter
      (fun r => r.url = artA.url)).length = 0 := by
  refine ⟨rfl, rfl, rfl, rfl, rfl⟩

/-- C7 counterexample: for videos and for articles alike, the Boolean
per-item result conflates the two outcomes — a storage failure on a fresh
table and a pre-existing key return the same `False`, and both land in the
same skipped counter; `failed` is not distinct from `duplicate`. -/
theorem persist_failed_eq_duplicate_ce :
    (save_video false [] vidB).1 = (save_video true [vrowB] vidB).1 ∧
    (save_video false [] vidB).1 = false ∧
    (save_all (fun _ => false) (fun _ => true) ⟨[], []⟩ [vidB] []).1.total_skipped = 1 ∧
    (save_article false [] artA).1 = (save_article true [arowA] artA).1 ∧
    (save_article false [] artA).1 = false ∧
    (save_all (fun _ => true) (fun _ => false) ⟨[], []⟩ [] [artA]).1.total_skipped = 1 := by
  refine ⟨rfl, rfl, rfl, rfl, rfl, rfl⟩

/-- The video-save loop shifts over its counter accumulator. -/
theorem saveVideos_fold_shift (vOk : VideoData → Bool) (videos : List VideoData)
    (s0 k0 : Nat) (d : List VideoRow) :
    videos.foldl (saveVideoStep vOk) (s0, k0, d) =
      ((videos.foldl (saveVideoStep vOk) (0, 0, d)).1 + s0,
       (videos.foldl (saveVideoStep vOk) (0, 0, d)).2.1 + k0,
       (videos.foldl (saveVideoStep vOk) (0, 0, d)).2.2) := by
  induction videos generalizing s0 k0 d with
  | nil => simp
  | cons v rest ih =>
    have hstep : saveVideoStep vOk (s0, k0, d) v =
        ((saveVideoStep vOk (0, 0, d) v).1 + s0,
         (saveVideoStep vOk (0, 0, d) v).2.1 + k0,
         (saveVideoStep vOk (0, 0, d) v).2.2) := by
      simp only [saveVideoStep]
      cases h : (save_video (vOk v) d v).1 <;> simp [Nat.add_comm]
    simp only [List.foldl_cons, hstep]
    rcases hc : saveVideoStep vOk (0, 0, d) v with ⟨S, K, D⟩
    simp only
    rw [ih (S + s0) (K + k0) D, ih S K D]
    simp [Nat.add_assoc]

/-- The article-save loop shifts over its counter accumulator. -/
theorem saveArticles_fold_shift (aOk : ArticleData → Bool)
    (articles : List ArticleData) (s0 k0 : Nat) (d : List ArticleRow) :
    articles.foldl (saveArticleStep aOk) (s0, k0, d) =
      ((articles.foldl (saveArticleStep aOk) (0, 0, d)).1 + s0,
       (articles.foldl (saveArticleStep aOk) (0, 0, d)).2.1 + k0,
       (articles.foldl (saveArticleStep aOk) (0, 0, d)).2.2) := by
  induction articles generalizing s0 k0 d with
  | nil => simp
  | cons a rest ih =>
    have hstep : saveArticleStep aOk (s0, k0, d) a =
        ((saveArticleStep aOk (0, 0, d) a).1 + s0,
         (saveArticleStep aOk (0, 0, d) a).2.1 + k0,
         (saveArticleStep aOk (0, 0, d) a).2.2) := by
      simp only [saveArticleStep]
      cases h : (save_article (aOk a) d a).1 <;> simp [Nat.add_comm]
    simp only [List.foldl_cons, hstep]
    rcases hc : saveArticleStep aOk (0, 0, d) a with ⟨S, K, D⟩
    simp only
    rw [ih (S + s0) (K + k0) D, ih S K D]
    simp [Nat.add_assoc]

/-- C7 (amended): a storage-layer failure on one item — video or article —
is caught: the save returns `False` with the table unchanged, the same
outcome value as a duplicate, counted in the same skipped totals rather
than as a distinct `failed` outcome, and every remaining item is still
processed: the run with the failing item differs from the run without it
only by one extra skip. -/
theorem persist_failure_isolated (vOk : VideoData → Bool)
    (aOk : ArticleData → Bool) (db : DBState) (l1 l2 : List VideoData)
    (v : VideoData) (k1 k2 : List ArticleData) (a : ArticleData)
    (hv : vOk v = false) (ha : aOk a = false) :
    (∀ rows : List VideoRow, save_video (vOk v) rows v = (false, rows)) ∧
    (∀ rows : List ArticleRow, save_article (aOk a) rows a = (false, rows)) ∧
    (save_all vOk aOk db (l1 ++ v :: l2) (k1 ++ k2)).2 =
      (save_all vOk aOk db (l1 ++ l2) (k1 ++ k2)).2 ∧
    (save_all vOk aOk db (l1 ++ v :: l2) (k1 ++ k2)).1.videos_saved =
      (save_all vOk aOk db (l1 ++ l2) (k1 ++ k2)).1.videos_saved ∧
    (save_all vOk aOk db (l1 ++ v :: l2) (k1 ++ k2)).1.videos_skipped =
      (save_all vOk aOk db (l1 ++ l2) (k1 ++ k2)).1.videos_skipped + 1 ∧
    (save_all vOk aOk db (l1 ++ v :: l2) (k1 ++ k2)).1.articles_saved =
      (save_all vOk aOk db (l1 ++ l2) (k1 ++ k2)).1.articles_saved ∧
    (save_all vOk aOk db (l1 ++ v :: l2) (k1 ++ k2)).1.articles_skipped =
      (save_all vOk aOk db (l1 ++ l2) (k1 ++ k2)).1.articles_skipped ∧
    (save_all vOk aOk db (l1 ++ v :: l2) (k1 ++ k2)).1.total_saved =
      (save_all vOk aOk db (l1 ++ l2) (k1 ++ k2)).1.total_saved ∧
    (save_all vOk aOk db (l1 ++ v :: l2) (k1 ++ k2)).1.total_skipped =
      (save_all vOk aOk db (l1 ++ l2) (k1 ++ k2)).1.total_skipped + 1 ∧
    (save_all vOk aOk db (l1 ++ l2) (k1 ++ a :: k2)).2 =
      (save_all vOk aOk db (l1 ++ l2) (k1 ++ k2)).2 ∧
    (save_all vOk aOk db (l1 ++ l2) (k1 ++ a :: k2)).1.videos_saved =
      (save_all vOk aOk db (l1 ++ l2) (k1 ++ k2)).1.videos_saved ∧
    (save_all vOk aOk db (l1 ++ l2) (k1 ++ a :: k2)).1.videos_skipped =
      (save_all vOk aOk db (l1 ++ l2) (k1 ++ k2)).1.videos_skipped ∧
    (save_all vOk aOk db (l1 ++ l2) (k1 ++ a :: k2)).1.articles_saved =
      (save_all vOk aOk db (l1 ++ l2) (k1 ++ k2)).1.articles_saved ∧
    (save_all vOk aOk db (l1 ++ l2) (k1 ++ a :: k2)).1.articles_skipped =
      (save_all vOk aOk db (l1 ++ l2) (k1 ++ k2)).1.articles_skipped + 1 ∧
    (save_all vOk aOk db (l1 ++ l2) (k1 ++ a :: k2)).1.total_saved =
      (save_all vOk aOk db (l1 ++ l2) (k1 ++ k2)).1.total_saved ∧
    (save_all vOk aOk db (l1 ++ l2) (k1 ++ a :: k2)).1.total_skipped =
      (save_all vOk aOk db (l1 ++ l2) (k1 ++ k2)).1.total_skipped + 1 := by
  have hsv : ∀ rows : List VideoRow, save_video (vOk v) rows v = (false, rows) := by
    intro rows
    simp [save_video, hv]
  have hsa : ∀ rows : List ArticleRow,
      save_article (aOk a) rows a = (false, rows) := by
    intro rows
    simp [save_article, ha]
  have hfoldV : ∀ d : List VideoRow,
      (l1 ++ v :: l2).foldl (saveVideoStep vOk) (0, 0, d) =
        (((l1 ++ l2).foldl (saveVideoStep vOk) (0, 0, d)).1,
         ((l1 ++ l2).foldl (saveVideoStep vOk) (0, 0, d)).2.1 + 1,
         ((l1 ++ l2).foldl (saveVideoStep vOk) (0, 0, d)).2.2) := by
    intro d
    rw [List.foldl_append, List.foldl_append]
    rcases h1 : l1.foldl (saveVideoStep vOk) (0, 0, d) with ⟨S1, K1, D1⟩
    have hstepv : saveVideoStep vOk (S1, K1, D1) v = (S1, K1 + 1, D1) := by
      simp [saveVideoStep, hsv D1]
    simp only [List.foldl_cons, hstepv]
    rw [saveVideos_fold_shift vOk l2 S1 (K1 + 1) D1,
        saveVideos_fold_shift vOk l2 S1 K1 D1]
    simp [Nat.add_assoc]
  have hfoldA : ∀ d : List ArticleRow,
      (k1 ++ a :: k2).foldl (saveArticleStep aOk) (0, 0, d) =
        (((k1 ++ k2).foldl (saveArticleStep aOk) (0, 0, d)).1,
         ((k1 ++ k2).foldl (saveArticleStep aOk) (0, 0, d)).2.1 + 1,
         ((k1 ++ k2).foldl (saveArticleStep aOk) (0, 0, d)).2.2) := by
    intro d
    rw [List.foldl_append, List.foldl_append]
    rcases h1 : k1.foldl (saveArticleStep aOk) (0, 0, d) with ⟨S1, K1, D1⟩
    have hstepa : saveArticleStep aOk (S1, K1, D1) a = (S1, K1 + 1, D1) := by
      simp [saveArticleStep, hsa D1]
    simp only [List.foldl_cons, hstepa]
    rw [saveArticles_fold_shift aOk k2 S1 (K1 + 1) D1,
        saveArticles_fold_shift aOk k2 S1 K1 D1]
    simp [Nat.add_assoc]
  refine ⟨hsv, hsa, ?_, ?_, ?_, ?_, ?_, ?_, ?_, ?_, ?_, ?_, ?_, ?_, ?_, ?_⟩ <;>
    simp only [save_all, hfoldV db.videos, hfoldA db.articles] <;>
    first
      | trivial
      | omega

/-- C7 witness: a three-video save where the middle video's storage fails
and a two-article save where the trailing article's storage fails — each
failing item is counted as one extra skip and the table ends identical to
the run without it. -/
theorem persist_failure_isolated_w :
    vOkNotB vidB = false ∧
    aOkNotA artA = false ∧
    (save_all vOkNotB aOkNotA ⟨[], []⟩ ([vidC] ++ vidB :: [vidD]) ([artB] ++ [])).2 =
      (save_all vOkNotB aOkNotA ⟨[], []⟩ ([vidC] ++ [vidD]) ([artB] ++ [])).2 ∧
    (save_all vOkNotB aOkNotA ⟨[], []⟩ ([vidC] ++ vidB :: [vidD]) ([artB] ++ [])).1.total_skipped =
      (save_all vOkNotB aOkNotA ⟨[], []⟩ ([vidC] ++ [vidD]) ([artB] ++ [])).1.total_skipped + 1 ∧
    (save_all vOkNotB aOkNotA ⟨[], []⟩ ([vidC] ++ [vidD]) ([artB] ++ artA :: [])).1.articles_skipped =
      (save_all vOkNotB aOkNotA ⟨[], []⟩ ([vidC] ++ [vidD]) ([artB] ++ [])).1.articles_skipped + 1 ∧
    (save_all vOkNotB aOkNotA ⟨[], []⟩ ([vidC] ++ [vidD]) ([artB] ++ artA :: [])).1.total_skipped =
      (save_all vOkNotB aOkNotA ⟨[], []⟩ ([vidC] ++ [vidD]) ([artB] ++ [])).1.total_skipped + 1 := by
  have h := persist_failure_isolated vOkNotB aOkNotA ⟨[], []⟩ [vidC] [vidD]
    vidB [artB] [] artA rfl rfl
  exact ⟨rfl, rfl, h.2.2.1, h.2.2.2.2.2.2.2.2.1,
         h.2.2.2.2.2.2.2.2.2.2.2.2.2.1, h.2.2.2.2.2.2.2.2.2.2.2.2.2.2.2⟩

end Agg
